import Mathlib

/-!
Verification of the lekker-find vibe-matching engine.

This file is a shallow embedding, in Lean 4, of the scoring, ranking and
evaluation code of the lekker-find repository, together with theorems that
settle the specification claims about it.  Python floats are modelled by
real numbers, Python lists by Lean lists, Python dicts by association
lists; fallible code is modelled with Option/Except.

Embedded source files:
- scripts/ab_test_embeddings.py   (cosine_similarity, mean_pool, evaluate_strategy)
- scripts/test_embeddings.py      (same cosine_similarity / mean-pool / sort logic)
- scripts/remove_duplicates.py    (the guarded pure-python cosine_similarity)
- scripts/venue_id_utils.py       (generate_stable_venue_id)
- scripts/generate_embeddings.py  (main and incremental_update id assignment)
-/

namespace LekkerFind

/-! ## Vector primitives, from scripts/ab_test_embeddings.py

`cosine_similarity(a, b) = np.dot(a, b) / (np.linalg.norm(a) * np.linalg.norm(b))`
(lines 67-68; the identical function appears in scripts/test_embeddings.py
lines 10-12).  `np.dot` of two 1-d arrays is the sum of pairwise products;
`np.linalg.norm` is the square root of the sum of squares. -/

/-- Sum of pairwise products of two vectors, `np.dot(a, b)` on 1-d arrays. -/
def dotL (a b : List ℝ) : ℝ := (List.zipWith (fun x y => x * y) a b).sum

/-- Sum of squares of the entries of a vector. -/
def sumSq (a : List ℝ) : ℝ := (a.map (fun x => x * x)).sum

/-- Euclidean norm, `np.linalg.norm(a)`. -/
noncomputable def normL (a : List ℝ) : ℝ := Real.sqrt (sumSq a)

/-- Cosine similarity as computed by scripts/ab_test_embeddings.py line 68
and scripts/test_embeddings.py line 12: no zero-norm guard of any kind. -/
noncomputable def cosine_similarity (a b : List ℝ) : ℝ :=
  dotL a b / (normL a * normL b)

/-- Mean pooling, `np.mean(embeddings, axis=0)`
(scripts/ab_test_embeddings.py lines 70-71; the same expression is inlined
at scripts/test_embeddings.py line 71): the i-th output coordinate is the
arithmetic mean of the i-th coordinates of the input vectors. -/
noncomputable def mean_pool (embeddings : List (List ℝ)) : List ℝ :=
  match embeddings with
  | [] => []
  | e :: _ =>
      (List.range e.length).map
        (fun i => (embeddings.map (fun v => v.getD i 0)).sum / (embeddings.length : ℝ))

/-! ## Basic lemmas about the vector primitives -/

theorem sumSq_cons (x : ℝ) (xs : List ℝ) : sumSq (x :: xs) = x * x + sumSq xs := by
  simp [sumSq]

theorem sumSq_nonneg (a : List ℝ) : 0 ≤ sumSq a := by
  induction a with
  | nil => simp [sumSq]
  | cons x xs ih =>
      rw [sumSq_cons]
      exact add_nonneg (mul_self_nonneg x) ih

theorem dotL_nil_left (b : List ℝ) : dotL [] b = 0 := by simp [dotL]

theorem dotL_nil_right (a : List ℝ) : dotL a [] = 0 := by
  cases a <;> simp [dotL]

theorem dotL_cons (x y : ℝ) (xs ys : List ℝ) :
    dotL (x :: xs) (y :: ys) = x * y + dotL xs ys := by
  simp [dotL]

/-- Cauchy-Schwarz for the list dot product (holds regardless of lengths,
since `zip` truncates to the common prefix). -/
theorem dotL_sq_le (a : List ℝ) : ∀ b : List ℝ, (dotL a b) ^ 2 ≤ sumSq a * sumSq b := by
  induction a with
  | nil =>
      intro b
      simp [dotL, sumSq]
  | cons x xs ih =>
      intro b
      cases b with
      | nil =>
          simp [dotL_nil_right, sumSq]
      | cons y ys =>
          have h := ih ys
          have hA := sumSq_nonneg xs
          have hB := sumSq_nonneg ys
          rw [dotL_cons, sumSq_cons, sumSq_cons]
          rcases eq_or_lt_of_le hA with hA0 | hApos
          · have hd : dotL xs ys = 0 := by nlinarith [sq_nonneg (dotL xs ys)]
            rw [hd, ← hA0]
            nlinarith [mul_nonneg (mul_self_nonneg x) hB]
          · nlinarith [sq_nonneg (x * dotL xs ys - sumSq xs * y),
              mul_nonneg (mul_self_nonneg x) (sub_nonneg.mpr h),
              mul_nonneg hApos.le (sub_nonneg.mpr h), hApos]

theorem normL_pos (a : List ℝ) (ha : 0 < sumSq a) : 0 < normL a :=
  Real.sqrt_pos.mpr ha

/-! ## The per-case scoring loop of evaluate_strategy
(scripts/ab_test_embeddings.py lines 93-158; the same score-and-sort logic is
inlined in scripts/test_embeddings.py lines 74-83). -/

/-- A venue as consumed by `evaluate_strategy`: the dict
`\x7b'name': ..., 'embedding': ...\x7d` built by run_benchmark. -/
structure VenueNE where
  name : String
  embedding : List ℝ

/-- One element of the `scores` list: the dict
`\x7b'name': v['name'], 'score': sim\x7d` of line 120. -/
structure Scored where
  name : String
  score : ℝ

/-- The comparison used by `scores.sort(key=lambda x: x['score'], reverse=True)`:
`a` may come before `b` exactly when `a`'s score is at least `b`'s. -/
def scoreRel (a b : Scored) : Prop := b.score ≤ a.score

noncomputable instance : DecidableRel scoreRel :=
  fun a b => inferInstanceAs (Decidable (b.score ≤ a.score))

instance : IsTotal Scored scoreRel := ⟨fun a b => le_total b.score a.score⟩

instance : IsTrans Scored scoreRel := ⟨fun _ _ _ h1 h2 => le_trans h2 h1⟩

/-- Lines 117-122: score every venue against the query vector, then
`scores.sort(key=lambda x: x['score'], reverse=True)`.  Python's `list.sort`
is a stable sort; with `reverse=True` it orders by strictly greater score and
keeps elements of equal score in input order, which is exactly a stable sort
by `scoreRel`; we model it with `List.insertionSort`, which is stable. -/
noncomputable def score_all (query : List ℝ) (venues : List VenueNE) : List Scored :=
  List.insertionSort scoreRel
    (venues.map (fun v => Scored.mk v.name (cosine_similarity query v.embedding)))

/-- A ground-truth test case (`TEST_CASES` entries): query moods plus the
expected venue names. -/
structure TestCase where
  moods : List String
  expected : List String

/-- Line 110: `[tag_embeddings[m] for m in tc['moods'] if m in tag_embeddings]`.
The dict of tag embeddings is modelled as an association list. -/
def moodEmbs (tag_embeddings : List (String × List ℝ)) (moods : List String) :
    List (List ℝ) :=
  moods.filterMap (fun m => List.lookup m tag_embeddings)

/-- Lines 123-127: the top-5 names and the Precision@5 numerator
`hits = sum(1 for exp in tc['expected'] if exp in top5_names)`. -/
def top5_names (scores : List Scored) : List String := (scores.take 5).map Scored.name

/-- Number of expected names found among the top-5 results (line 126). -/
def hits (expected : List String) (scores : List Scored) : ℕ :=
  (expected.filter (fun e => e ∈ top5_names scores)).length

/-- Line 127: `precision = hits / min(len(tc['expected']), 5)`. -/
noncomputable def precision_at_5 (expected : List String) (scores : List Scored) : ℝ :=
  (hits expected scores : ℝ) / (min expected.length 5 : ℕ)

/-- The divisor of line 127, `min(len(tc['expected']), 5)`, used with no
emptiness guard. -/
def precision_divisor (expected : List String) : ℕ := min expected.length 5

/-- Lines 131-135 with the enumeration counter explicit: walk the sorted
scores; on the first hit return `1 / (i + 1)` (`break`), else keep the
initial `mrr = 0`. -/
noncomputable def mrr_from (expected : List String) : ℕ → List Scored → ℝ
  | _, [] => 0
  | i, s :: rest =>
      if s.name ∈ expected then 1 / ((i : ℝ) + 1) else mrr_from expected (i + 1) rest

/-- Lines 130-136: MRR of one case, starting the enumeration at index 0. -/
noncomputable def mean_reciprocal_rank (expected : List String) (scores : List Scored) : ℝ :=
  mrr_from expected 0 scores

/-- The body of the per-case loop of `evaluate_strategy` (lines 108-136)
restricted to the two metrics the spec claims are about: `none` models the
`continue` of line 112 (the case is skipped when no mood embedding is found),
`some (precision, mrr)` the contribution of a processed case.  The
score-spread and min/max bookkeeping of lines 139-151 is independent of these
two metrics and is not modelled. -/
noncomputable def case_metrics (venues : List VenueNE)
    (tag_embeddings : List (String × List ℝ)) (tc : TestCase) : Option (ℝ × ℝ) :=
  let mood_embs := moodEmbs tag_embeddings tc.moods
  if mood_embs.isEmpty then none
  else
    let query := mean_pool mood_embs
    let scores := score_all query venues
    some (precision_at_5 tc.expected scores, mean_reciprocal_rank tc.expected scores)

/-- Lines 104-156: the aggregate `(precision_at_5, mrr)` result of
`evaluate_strategy`.  Skipped cases contribute nothing to the totals, yet
`n = len(test_cases)` still counts them in the divisor; `n == 0` yields 0. -/
noncomputable def evaluate_strategy (venues : List VenueNE)
    (tag_embeddings : List (String × List ℝ)) (test_cases : List TestCase) : ℝ × ℝ :=
  let per := test_cases.filterMap (case_metrics venues tag_embeddings)
  let n := test_cases.length
  (if 0 < n then (per.map Prod.fst).sum / (n : ℝ) else 0,
   if 0 < n then (per.map Prod.snd).sum / (n : ℝ) else 0)

end LekkerFind

namespace RemoveDuplicates

/-- The guarded pure-python cosine of scripts/remove_duplicates.py lines 9-16:
`if not v1 or not v2: return 0.0`; dot product over `zip(v1, v2)` (which
silently truncates to the shorter vector); explicit `return 0.0` when either
norm is zero. -/
noncomputable def cosine_similarity (v1 v2 : List ℝ) : ℝ :=
  match v1, v2 with
  | [], _ => 0
  | _, [] => 0
  | _, _ =>
      let dot_product := LekkerFind.dotL v1 v2
      let norm_v1 := LekkerFind.normL v1
      let norm_v2 := LekkerFind.normL v2
      if norm_v1 = 0 ∨ norm_v2 = 0 then 0 else dot_product / (norm_v1 * norm_v2)

end RemoveDuplicates

namespace VenueIdUtils

/-- The ascii apostrophe character removed by `re.sub(r"['']", '', ...)`
(scripts/venue_id_utils.py line 44; the character class holds the ascii
apostrophe twice). -/
def apos : Char := Char.ofNat 39

/-- Characters kept by the slug: the class `[a-z0-9]` of line 47. -/
def isLowerAlnum (c : Char) : Bool :=
  decide (Char.ofNat 97 ≤ c ∧ c ≤ Char.ofNat 122) ||
  decide (Char.ofNat 48 ≤ c ∧ c ≤ Char.ofNat 57)

/-- Replace every character outside `[a-z0-9]` with a dash. -/
def dashify (c : Char) : Char := if isLowerAlnum c then c else Char.ofNat 45

/-- Collapse consecutive dashes into one, so that `dashify` followed by
`squeezeDashes` replaces each maximal run of non-`[a-z0-9]` characters with a
single dash, exactly as `re.sub(r'[^a-z0-9]+', '-', ...)` does (line 47). -/
def squeezeDashes : List Char → List Char
  | [] => []
  | [c] => [c]
  | c :: d :: rest =>
      if c = Char.ofNat 45 ∧ d = Char.ofNat 45 then squeezeDashes (d :: rest)
      else c :: squeezeDashes (d :: rest)

/-- Remove leading dashes. -/
def dropLeadingDashes (l : List Char) : List Char :=
  l.dropWhile (fun c => c == Char.ofNat 45)

/-- Remove trailing dashes, `str.rstrip('-')`. -/
def dropTrailingDashes (l : List Char) : List Char :=
  (l.reverse.dropWhile (fun c => c == Char.ofNat 45)).reverse

/-- Lines 41-54 of scripts/venue_id_utils.py: lowercase, delete ascii
apostrophes, replace runs of non-alphanumerics with single dashes, strip
dashes at both ends, truncate to 40 characters and re-strip trailing
dashes. -/
def slug (venue_name : String) : List Char :=
  let normalized := (venue_name.toLower.data.filter (fun c => c ≠ apos)).map dashify
  let normalized := squeezeDashes normalized
  let normalized := dropTrailingDashes (dropLeadingDashes normalized)
  if normalized.length > 40 then dropTrailingDashes (normalized.take 40) else normalized

/-- Lines 37-60 of scripts/venue_id_utils.py.  The md5 hex digest is an
external deterministic function of the name; it is passed in as a parameter
`md5hex4` standing for `hashlib.md5(venue_name.encode('utf-8')).hexdigest()[:4]`.
An empty name raises `ValueError` (line 38), modelled by `Except.error`. -/
def generate_stable_venue_id (md5hex4 : String → String) (venue_name : String) :
    Except String String :=
  if venue_name = "" then Except.error "Venue name cannot be empty"
  else Except.ok (String.mk (slug venue_name) ++ "-" ++ md5hex4 venue_name)

end VenueIdUtils

namespace GenerateEmbeddings

/-- The id assigned by the full build `main` (scripts/generate_embeddings.py
line about `venue_id = generate_stable_venue_id(row['Name'])`): a function of
the venue name alone. -/
def main_venue_id (md5hex4 : String → String) (name : String) : Except String String :=
  VenueIdUtils.generate_stable_venue_id md5hex4 name

/-- The id assignment of `incremental_update` (scripts/generate_embeddings.py,
`'id': f"v\x7blen(existing_venues) + len(new_venues)\x7d"`): when the loop reaches
the i-th new row (0-based), `new_venues` holds i records, so the id is
`"v" ++ toString (existingCount + i)` - a function of the row's position.
The result pairs each new name with its assigned id, in csv row order. -/
def incremental_new_ids (existingCount : ℕ) (newNames : List String) :
    List (String × String) :=
  newNames.enum.map (fun p => (p.2, "v" ++ toString (existingCount + p.1)))

end GenerateEmbeddings

namespace SpecModel

/-- Modelled from the spec: the clamped `normalize` of section 4.5 is not
implemented under src/ (run_benchmark, scripts/ab_test_embeddings.py lines
262-277, only prints the recommended linear formula
`scaled = 0.55 + (raw - MIN_SIM) / (MAX_SIM - MIN_SIM) * 0.43` for the
presentation layer); this definition follows the spec's words: the linear
rescale `display_floor + (raw_score - min_sim) / (max_sim - min_sim) *
(display_ceiling - display_floor)`, clamped to
`[display_floor, display_ceiling]`. -/
def normalize (raw_score min_sim max_sim display_floor display_ceiling : ℚ) : ℚ :=
  max display_floor (min display_ceiling
    (display_floor + (raw_score - min_sim) / (max_sim - min_sim) *
      (display_ceiling - display_floor)))

/-- Spec section 4.6: `precision_at_k(case, scored_results, k) ->
hits / min(|expected|, k)`, hits being the number of expected names among the
top k results. -/
noncomputable def precision_at_k_spec (expected : List String) (results : List String)
    (k : ℕ) : ℝ :=
  ((expected.filter (fun e => e ∈ results.take k)).length : ℝ) / (min expected.length k : ℕ)

/-- Spec section 4.6: `mean_reciprocal_rank(case, scored_results) ->
1/(rank of first expected hit)`, 0 if no expected name appears; the rank of
the first hit is one more than the index of the first result name belonging
to the expected set. -/
noncomputable def mean_reciprocal_rank_spec (expected : List String)
    (results : List String) : ℝ :=
  match results.findIdx? (fun n => n ∈ expected) with
  | none => 0
  | some i => 1 / ((i : ℝ) + 1)

end SpecModel

namespace LekkerFind

/-! ## Helper lemmas for the claim theorems -/

theorem mrr_from_findIdx (expected : List String) (l : List Scored) :
    ∀ i : ℕ, mrr_from expected i l =
      match (l.map Scored.name).findIdx? (fun n => n ∈ expected) i with
      | none => 0
      | some j => 1 / ((j : ℝ) + 1) := by
  induction l with
  | nil => intro i; simp [mrr_from]
  | cons s rest ih =>
      intro i
      rw [List.map_cons, List.findIdx?_cons]
      by_cases h : s.name ∈ expected
      · simp [mrr_from, h]
      · rw [mrr_from, if_neg h, ih (i + 1)]
        simp [h]

theorem normL_pair_34 : normL [3, 4] = 5 := by
  rw [normL, show sumSq [3, 4] = 25 by norm_num [sumSq],
    show (25 : ℝ) = 5 ^ 2 by norm_num, Real.sqrt_sq (by norm_num)]

theorem normL_unit3 : normL [1, 0, 0] = 1 := by
  rw [normL, show sumSq [1, 0, 0] = 1 by norm_num [sumSq], Real.sqrt_one]

/-! ## Claim theorems -/

/-- C1 (amended): for every query vector and corpus, the scoring loop of
`evaluate_strategy` returns exactly one scored result per venue (the output
is a permutation of the per-venue score list, in particular of the same
length), sorted by descending score; being a pure function, running it twice
on the same inputs yields identical output.  Ties, however, follow the input
order of the venues (Python's stable sort), not the venue identifier. -/
theorem score_all_sorted_perm (query : List ℝ) (venues : List VenueNE) :
    (score_all query venues).Perm
        (venues.map (fun v => Scored.mk v.name (cosine_similarity query v.embedding))) ∧
    List.Sorted scoreRel (score_all query venues) ∧
    (score_all query venues).length = venues.length := by
  refine ⟨List.perm_insertionSort _ _, List.sorted_insertionSort _ _, ?_⟩
  rw [score_all, List.length_insertionSort, List.length_map]

/-- C1 counterexample: two venues with identical embeddings (hence tied
scores) named "b" and "a", fed in that order, come out in input order
["b", "a"]; feeding them in the opposite order yields ["a", "b"].  The tie
order therefore follows list position, and is not determined by the venue
identifier as the claim states (a tie-break by identifier would give
["a", "b"] both times). -/
theorem score_all_tie_follows_input_order :
    ((score_all [1, 0] [VenueNE.mk "b" [1, 0], VenueNE.mk "a" [1, 0]]).map Scored.name
        = ["b", "a"]) ∧
    ((score_all [1, 0] [VenueNE.mk "a" [1, 0], VenueNE.mk "b" [1, 0]]).map Scored.name
        = ["a", "b"]) := by
  constructor <;> simp [score_all, scoreRel]

/-- C2: mean pooling is invariant under permutation of the input tag vectors:
for every non-empty list of equal-dimension embeddings, any permutation of
the list yields the same pooled query vector. -/
theorem mean_pool_perm_invariant (l₁ l₂ : List (List ℝ)) (d : ℕ) (hne : l₁ ≠ [])
    (hlen : ∀ v ∈ l₁, v.length = d) (hp : l₁.Perm l₂) :
    mean_pool l₁ = mean_pool l₂ := by
  cases l₁ with
  | nil => cases hne rfl
  | cons e₁ t₁ =>
      cases l₂ with
      | nil => exact absurd hp.length_eq (by simp)
      | cons e₂ t₂ =>
          have h₁ : e₁.length = d := hlen e₁ (List.mem_cons_self _ _)
          have h₂ : e₂.length = d := hlen e₂ (hp.symm.subset (List.mem_cons_self _ _))
          simp only [mean_pool]
          rw [h₁, h₂]
          refine List.map_congr_left (fun i _ => ?_)
          rw [(hp.map (fun v => v.getD i 0)).sum_eq, hp.length_eq]

/-- C2 witness: a concrete two-vector permutation. -/
theorem mean_pool_perm_invariant_witness :
    mean_pool [[1, 2], [3, 4]] = mean_pool [[3, 4], [1, 2]] :=
  mean_pool_perm_invariant _ _ 2 (by simp) (by intro v hv; fin_cases hv <;> rfl)
    (List.Perm.swap _ _ _)

/-- C4 (amended): for every pair of equal-length vectors of nonzero norm,
cosine_similarity returns dot(a, b) / (norm a * norm b), a value in [-1, 1].
For zero-norm input there is no ZeroVectorError anywhere in the code: the
numpy variants have no guard at all, and the remove_duplicates variant
explicitly returns 0.0 (see the counterexample). -/
theorem cosine_similarity_bounded (a b : List ℝ) (hab : a.length = b.length)
    (ha : 0 < sumSq a) (hb : 0 < sumSq b) :
    -1 ≤ cosine_similarity a b ∧ cosine_similarity a b ≤ 1 := by
  have hna := normL_pos a ha
  have hnb := normL_pos b hb
  have hp : 0 < normL a * normL b := mul_pos hna hnb
  have hsq : (dotL a b) ^ 2 ≤ (normL a * normL b) ^ 2 := by
    have h2 : (normL a * normL b) ^ 2 = sumSq a * sumSq b := by
      rw [mul_pow, normL, normL, Real.sq_sqrt ha.le, Real.sq_sqrt hb.le]
    rw [h2]
    exact dotL_sq_le a b
  have habs : |dotL a b| ≤ normL a * normL b := by
    have h1 := Real.sqrt_le_sqrt hsq
    rwa [Real.sqrt_sq_eq_abs, Real.sqrt_sq hp.le] at h1
  constructor
  · rw [cosine_similarity, le_div_iff₀ hp]
    have := (abs_le.mp habs).1
    linarith
  · rw [cosine_similarity, div_le_one hp]
    exact le_of_abs_le habs

/-- C4 witness: orthogonal unit-ish vectors. -/
theorem cosine_similarity_bounded_witness :
    -1 ≤ cosine_similarity [1, 0] [0, 1] ∧ cosine_similarity [1, 0] [0, 1] ≤ 1 :=
  cosine_similarity_bounded _ _ rfl (by norm_num [sumSq]) (by norm_num [sumSq])

/-- C4 counterexample: the remove_duplicates cosine returns 0 - the value the
spec says must never be returned for a zero-norm vector - instead of failing
with ZeroVectorError. -/
theorem cosine_similarity_zero_vector_returns_zero :
    RemoveDuplicates.cosine_similarity [0, 0] [1, 1] = 0 := by
  have h : normL [0, 0] = 0 := by
    rw [normL, show sumSq [0, 0] = 0 by norm_num [sumSq], Real.sqrt_zero]
  simp [RemoveDuplicates.cosine_similarity, h]

/-- C7: the Precision@5 computed per case by `evaluate_strategy`
(hits over min of the expected-set size and 5, hits counted among the top-5
names) coincides with the spec's `precision_at_k` at k = 5 applied to the
ranked name list. -/
theorem precision_at_5_matches_spec (expected : List String) (scores : List Scored)
    (h : expected ≠ []) :
    precision_at_5 expected scores =
      SpecModel.precision_at_k_spec expected (scores.map Scored.name) 5 := by
  simp [precision_at_5, SpecModel.precision_at_k_spec, hits, top5_names, List.map_take]

/-- C7 witness: one expected venue sitting at rank 1 of a two-venue ranking. -/
theorem precision_at_5_matches_spec_witness :
    precision_at_5 ["a"] [Scored.mk "a" 1, Scored.mk "b" 0] =
      SpecModel.precision_at_k_spec ["a"]
        (([Scored.mk "a" 1, Scored.mk "b" 0]).map Scored.name) 5 :=
  precision_at_5_matches_spec _ _ (by simp)

/-- C8: the MRR computed per case by `evaluate_strategy` (walk the ranked
list, return 1/(index+1) at the first expected name, 0 if none) equals the
spec's `mean_reciprocal_rank`: the reciprocal of the 1-based rank of the
first expected venue in the results, and 0 when no expected venue appears. -/
theorem mean_reciprocal_rank_matches_spec (expected : List String) (scores : List Scored) :
    mean_reciprocal_rank expected scores =
      SpecModel.mean_reciprocal_rank_spec expected (scores.map Scored.name) := by
  rw [mean_reciprocal_rank, mrr_from_findIdx, SpecModel.mean_reciprocal_rank_spec]

/-- C10: the divisor `min(len(expected), 5)` of the precision computation in
`evaluate_strategy` is positive exactly when the case's expected set is
non-empty; an empty expected set makes it zero (and the Python division
raises ZeroDivisionError). -/
theorem precision_divisor_pos_iff (expected : List String) :
    0 < precision_divisor expected ↔ expected ≠ [] := by
  simp [precision_divisor, lt_min_iff, List.length_pos]

end LekkerFind

namespace LekkerFind

/-- C6 (amended): a test case whose mood list yields no known tag embedding
(zero tags, or no tag present in the vocabulary) is silently skipped by
`evaluate_strategy` - the `continue` at line 112 - rather than failing with
EmptyQueryError; the skipped case contributes nothing to the totals while
still counting in the divisor `n`. -/
theorem evaluate_strategy_skips_empty_query (venues : List VenueNE)
    (tag_embeddings : List (String × List ℝ)) (tc : TestCase)
    (h : moodEmbs tag_embeddings tc.moods = []) :
    case_metrics venues tag_embeddings tc = none := by
  simp [case_metrics, h]

/-- C6 witness: an unknown tag against an empty vocabulary is skipped. -/
theorem evaluate_strategy_skips_empty_query_witness :
    case_metrics [] [] (TestCase.mk ["Romantic"] ["Harbour House"]) = none :=
  evaluate_strategy_skips_empty_query _ _ _ rfl

/-- C6 counterexample: evaluating a strategy on a single case with an
unknown-tag query returns the normal aggregate (0, 0) - no failure of any
kind is raised before (or instead of) scoring, contradicting the claimed
EmptyQueryError. -/
theorem evaluate_strategy_empty_query_no_error :
    evaluate_strategy [] [] [TestCase.mk ["Romantic"] ["Harbour House"]] = (0, 0) := by
  simp [evaluate_strategy, case_metrics, moodEmbs]

/-- C9 (amended): no DimensionMismatchError exists anywhere in the code and
no dimension validation precedes scoring; in particular the pure-python
cosine of remove_duplicates scores vectors of any two nonzero lengths and
norms by silently truncating to the shorter vector (zip), returning the
truncated dot product over the product of the full norms instead of failing
fast. -/
theorem cosine_similarity_truncates_mismatched (v1 v2 : List ℝ) (h1 : v1 ≠ []) (h2 : v2 ≠ [])
    (hn1 : normL v1 ≠ 0) (hn2 : normL v2 ≠ 0) :
    RemoveDuplicates.cosine_similarity v1 v2 = dotL v1 v2 / (normL v1 * normL v2) := by
  cases v1 with
  | nil => cases h1 rfl
  | cons x xs =>
      cases v2 with
      | nil => cases h2 rfl
      | cons y ys =>
          simp only [RemoveDuplicates.cosine_similarity]
          rw [if_neg (not_or.mpr ⟨hn1, hn2⟩)]

/-- C9 witness: a 2-dimensional against a 3-dimensional vector is scored. -/
theorem cosine_similarity_truncates_mismatched_witness :
    RemoveDuplicates.cosine_similarity [3, 4] [1, 0, 0] =
      dotL [3, 4] [1, 0, 0] / (normL [3, 4] * normL [1, 0, 0]) :=
  cosine_similarity_truncates_mismatched _ _ (by simp) (by simp)
    (by rw [normL_pair_34]; norm_num) (by rw [normL_unit3]; norm_num)

/-- C9 counterexample: a dimension-mismatched pair is scored to the ordinary
value 3/5 instead of failing fast with DimensionMismatchError. -/
theorem cosine_similarity_scores_mismatched_dims :
    RemoveDuplicates.cosine_similarity [3, 4] [1, 0, 0] = 3 / 5 := by
  simp only [RemoveDuplicates.cosine_similarity]
  rw [if_neg (not_or.mpr ⟨by rw [normL_pair_34]; norm_num, by rw [normL_unit3]; norm_num⟩)]
  rw [normL_pair_34, normL_unit3]
  norm_num [dotL]

/-- C3 (code bug, failing input): with one existing venue, `incremental_update`
assigns the new venue "Alpha" the id "v1" when the csv rows come in the order
[Alpha, Beta] but the id "v2" when they come in the order [Beta, Alpha] - the
id is a function of the row's position, not of the name, contradicting the
claim and the repository's own venue_id_utils documentation (the full build
`main` does derive the id from the name alone via generate_stable_venue_id). -/
theorem incremental_update_id_depends_on_position :
    GenerateEmbeddings.incremental_new_ids 1 ["Alpha", "Beta"]
        = [("Alpha", "v1"), ("Beta", "v2")] ∧
    GenerateEmbeddings.incremental_new_ids 1 ["Beta", "Alpha"]
        = [("Beta", "v1"), ("Alpha", "v2")] := by
  constructor <;> rfl

end LekkerFind

namespace SpecModel

/-- C5: for every raw score and every calibration with min_sim < max_sim and
display_floor < display_ceiling, the (spec-modelled) normalize - the linear
rescale clamped to the display range - always produces a value within
[display_floor, display_ceiling], even when the raw score lies outside
[min_sim, max_sim]. -/
theorem normalize_output_clamped (raw_score min_sim max_sim dfloor dceiling : ℚ)
    (hsim : min_sim < max_sim) (hdisp : dfloor < dceiling) :
    dfloor ≤ normalize raw_score min_sim max_sim dfloor dceiling ∧
    normalize raw_score min_sim max_sim dfloor dceiling ≤ dceiling :=
  ⟨le_max_left _ _, max_le hdisp.le (min_le_left _ _)⟩

/-- C5 witness: a raw score of 2, well above the calibration range [0, 1],
still lands inside the display range [0, 1]. -/
theorem normalize_output_clamped_witness :
    (0 : ℚ) ≤ normalize 2 0 1 0 1 ∧ normalize 2 0 1 0 1 ≤ 1 :=
  normalize_output_clamped 2 0 1 0 1 (by norm_num) (by norm_num)

end SpecModel
